import Mathlib

/-!
Verification of the ZLMediaKit RTSP session engine and media-source registry.

The definitions below are shallow embeddings of the C++ functions in
`src/Common/macros.cpp` (media-source registry: `MediaSource::regist`, `find_l`,
`findAsync_l`, `MediaInfo::parse`) and `src/Rtsp/RtspSession.cpp` (the RTSP
session state machine: authentication, SETUP transport selection, RECORD
handling, liveness timeouts, track-index lookups).  External collaborators
(the toolkit string `split`, `MD5`, `Parser::parseArgs`, `splitUrl`, `isIP`,
the MP4 on-demand reader) are embedded from their documented behaviour or
taken as function parameters.
-/

/-- Character-list strings, used where the C++ code indexes into `std::string`. -/
abbrev Str := List Char

/-- Model of C++ `std::string::find(pat)`: index of the first occurrence of
`pat`, `none` when absent (`std::string::npos`). -/
def strFind (pat : Str) : Str → Option Nat
  | [] => if pat.isPrefixOf ([] : Str) then some 0 else none
  | c :: rest => if pat.isPrefixOf (c :: rest) then some 0 else (strFind pat rest).map (· + 1)

/-- Loop body of the ZLToolKit `split(s, delim)` helper (external collaborator
used by `MediaInfo::parse` and `RtspSession::onAuthBasic`): scan the input,
flush the accumulated token at each delimiter, drop empty tokens, and keep a
trailing token only when it is non-empty. -/
def splitCore (delim : Char) : Str → Str → List Str
  | [], acc => if acc.isEmpty then [] else [acc.reverse]
  | c :: rest, acc =>
    if c = delim then
      if acc.isEmpty then splitCore delim rest [] else acc.reverse :: splitCore delim rest []
    else splitCore delim rest (c :: acc)

/-- ZLToolKit `split`: an empty input yields one empty token (the C++ loop
pushes `s.substr(last)` whenever the whole input is empty). -/
def tkSplit (s : Str) (delim : Char) : List Str :=
  if s.isEmpty then [[]] else splitCore delim s []

/-- ZLToolKit `split` lifted to `String`, as used with single-character
delimiters at the call sites embedded here. -/
def split (s : String) (delim : Char) : List String :=
  (tkSplit s.toList delim).map List.asString

/-- The `DEFAULT_VHOST` sentinel (`__defaultVhost__`). -/
def DEFAULT_VHOST : String := "__defaultVhost__"

/-- The `HLS_SCHEMA` constant ("hls"). -/
def HLS_SCHEMA : String := "hls"

/-- The `VHOST_KEY` query-string key ("vhost"). -/
def VHOST_KEY : String := "vhost"

/-- Identity of a registry slot: the four-level key of `s_media_source_map`. -/
structure RegKey where
  schema : String
  vhost : String
  app : String
  stream : String
deriving DecidableEq

/-- A `weak_ptr<MediaSource>`: the target source id, or null. -/
abbrev Weak := Option Nat

/-- The four-level index `s_media_source_map`, flattened to its leaf slots. -/
abbrev Registry := List (RegKey × Weak)

/-- `weak_ptr::lock()`, given which source objects are still alive. -/
def lockWeak (alive : Nat → Bool) : Weak → Option Nat
  | some i => if alive i then some i else none
  | none => none

/-- Reading `s_media_source_map[schema][vhost][app][stream]`: `operator[]`
yields a default (null) weak reference for an absent slot. -/
def slotOf (reg : Registry) (k : RegKey) : Weak :=
  match reg.find? (fun e => decide (e.1 = k)) with
  | some e => e.2
  | none => none

/-- Writing through the reference obtained from `operator[]` on the index. -/
def setSlot (reg : Registry) (k : RegKey) (w : Weak) : Registry :=
  if (reg.find? (fun e => decide (e.1 = k))).isSome then
    reg.map (fun e => if e.1 = k then (k, w) else e)
  else reg ++ [(k, w)]

/-- Observable actions of `MediaSource::regist`: a mutation of the index, and
the "media changed" event emission (`emitEvent(true)`). -/
inductive RegAction where
  | mutate (reg : Registry)
  | emitEvent (regist : Bool)
deriving DecidableEq

/-- `MediaSource::regist` (src/Common/macros.cpp): look up the slot for this
source's key; if it holds a live source, return silently when it is this very
object and throw "media source already existed" otherwise (the C++ message
also carries the URL); else store the source and, after leaving the locked
section, emit the registration event.  The result is the ordered list of
observable actions, or the thrown error. -/
def MediaSource.regist (alive : Nat → Bool) (reg : Registry) (k : RegKey) (self : Nat) :
    Except String (List RegAction) :=
  match lockWeak alive (slotOf reg k) with
  | some src =>
    if src = self then .ok []
    else .error "media source already existed:"
  | none => .ok [.mutate (setSlot reg k (some self)), .emitEvent true]

/-- One level of `for_each_media_l`: an empty filter is a wildcard. -/
def fieldMatch (pattern value : String) : Bool :=
  pattern == "" || pattern == value

/-- Whether a slot key is selected by the four (possibly empty) filters. -/
def keyMatch (schema vhost app stream : String) (k : RegKey) : Bool :=
  fieldMatch schema k.schema && fieldMatch vhost k.vhost &&
    fieldMatch app k.app && fieldMatch stream k.stream

/-- `MediaSource::for_each_media` restricted to collecting the matching live
sources (`emplace_back` skips expired weak references). -/
def for_each_media (alive : Nat → Bool) (reg : Registry)
    (schema vhost app stream : String) : List Nat :=
  (reg.filter (fun e => keyMatch schema vhost app stream e.1)).filterMap
    (fun e => lockWeak alive e.2)

/-- The default-vhost substitution at the top of `find_l`:
`if (vhost.empty() || !enableVhost) vhost = DEFAULT_VHOST`. -/
def substVhost (enableVhost : Bool) (vhost : String) : String :=
  if vhost = "" ∨ enableVhost = false then DEFAULT_VHOST else vhost

/-- `find_l` (src/Common/macros.cpp): substitute the default vhost, refuse
empty app or stream, look up the registry (the callback overwrites `ret`, so
the last match wins), and fall back to the external MP4 on-demand reader
(`createFromMP4`, passed as a parameter) only when the lookup missed,
`from_mp4` is set and the schema is not HLS.  The boolean component records
whether the MP4 reader was invoked. -/
def find_l (alive : Nat → Bool) (reg : Registry)
    (createFromMP4 : String → String → String → String → Option Nat) (enableVhost : Bool)
    (schema vhost_in app id : String) (from_mp4 : Bool) : Option Nat × Bool :=
  let vhost := substVhost enableVhost vhost_in
  if app = "" ∨ id = "" then (none, false)
  else
    let ret := (for_each_media alive reg schema vhost app id).getLast?
    if ret = none ∧ from_mp4 = true ∧ schema ≠ HLS_SCHEMA then
      (createFromMP4 schema vhost app id, true)
    else (ret, false)

/-- Claim C2: for every call to `regist()`, if the slot already holds a live
reference to the same object the call is a no-op (no index mutation, no
event); if it holds a live reference to a different object the call fails
with "already existed" and performs no action; otherwise the source is
inserted and the registration event is emitted after the index mutation. -/
theorem regist_slot_cases (alive : Nat → Bool) (reg : Registry) (k : RegKey) (self : Nat) :
    (lockWeak alive (slotOf reg k) = some self →
      MediaSource.regist alive reg k self = .ok []) ∧
    (∀ other, lockWeak alive (slotOf reg k) = some other → other ≠ self →
      MediaSource.regist alive reg k self = .error "media source already existed:") ∧
    (lockWeak alive (slotOf reg k) = none →
      MediaSource.regist alive reg k self =
        .ok [.mutate (setSlot reg k (some self)), .emitEvent true]) := by
  refine ⟨?_, ?_, ?_⟩
  · intro h
    simp [MediaSource.regist, h]
  · intro other h hne
    simp [MediaSource.regist, h, hne]
  · intro h
    simp [MediaSource.regist, h]

/-- Witness for `regist_slot_cases` at a concrete empty registry. -/
theorem regist_slot_cases_witness :
    MediaSource.regist (fun _ => true) [] ⟨"rtsp", "__defaultVhost__", "app", "stream"⟩ 1 =
      .ok [.mutate [(⟨"rtsp", "__defaultVhost__", "app", "stream"⟩, some 1)], .emitEvent true] := by
  have h := (regist_slot_cases (fun _ => true) []
    ⟨"rtsp", "__defaultVhost__", "app", "stream"⟩ 1).2.2 (by decide)
  simpa [setSlot] using h

/-- Claim C4: `find_l` returns no source when app or stream is empty; the MP4
fallback is invoked exactly when the registry lookup missed, `from_mp4` is
set and the schema is not HLS; in particular a lookup under the HLS schema
never invokes the MP4 reader. -/
theorem find_l_mp4_fallback_gate (alive : Nat → Bool) (reg : Registry)
    (createFromMP4 : String → String → String → String → Option Nat) (enableVhost : Bool)
    (schema vhost_in app id : String) (from_mp4 : Bool) :
    (app = "" ∨ id = "" →
      find_l alive reg createFromMP4 enableVhost schema vhost_in app id from_mp4 =
        (none, false)) ∧
    ((find_l alive reg createFromMP4 enableVhost schema vhost_in app id from_mp4).2 = true ↔
      app ≠ "" ∧ id ≠ "" ∧
        (for_each_media alive reg schema (substVhost enableVhost vhost_in) app id).getLast? =
          none ∧
        from_mp4 = true ∧ schema ≠ HLS_SCHEMA) ∧
    (schema = HLS_SCHEMA →
      (find_l alive reg createFromMP4 enableVhost schema vhost_in app id from_mp4).2 =
        false) := by
  refine ⟨?_, ?_, ?_⟩
  · intro h
    simp [find_l, h]
  · by_cases happ : app = "" <;> by_cases hid : id = "" <;>
      by_cases hret : (for_each_media alive reg schema (substVhost enableVhost vhost_in)
        app id).getLast? = none <;>
      by_cases hm : from_mp4 = true <;> by_cases hh : schema = HLS_SCHEMA <;>
      simp [find_l, happ, hid, hret, hm, hh]
  · intro hh
    by_cases happ : app = "" <;> by_cases hid : id = "" <;>
      simp [find_l, happ, hid, hh]

/-- Witness for `find_l_mp4_fallback_gate`: with the HLS schema and the MP4
fallback allowed, the MP4 reader is not invoked. -/
theorem find_l_mp4_fallback_gate_witness :
    (find_l (fun _ => true) [] (fun _ _ _ _ => some 7) true
      "hls" "vhost" "app" "stream" true).2 = false :=
  (find_l_mp4_fallback_gate (fun _ => true) [] (fun _ _ _ _ => some 7) true
    "hls" "vhost" "app" "stream" true).2.2 rfl

/-- Outcome of one RTSP authentication check: `onAuthSuccess`, or
`onAuthFailed(realm, why)` (which replies 401 with a fresh challenge). -/
inductive AuthResult where
  | success
  | failed (realm why : String)
deriving DecidableEq

/-- The trimmed fields of a parsed `Authorization: Digest` header
(`Parser::parseArgs(auth_md5, ",", "=")` followed by quote-trimming). -/
structure DigestAttempt where
  realm : String
  nonce : String
  username : String
  uri : String
  response : String

/-- C `strcasecmp(a, b) == 0`: case-insensitive string equality. -/
def strcasecmpEq (a b : String) : Bool := a.toLower == b.toLower

/-- `RtspSession::onAuthDigest` (src/Rtsp/RtspSession.cpp): check the echoed
realm against the session realm, the echoed nonce against `_auth_nonce`, and
that username, uri and response are non-empty; then the auth-query event
(`kBroadcastOnRtspAuth`) either is not listened to (`auth_event = none`, the
code ignores authentication and succeeds) or yields `(encrypted, good_pwd)`;
the expected response is `md5(HA1 : nonce : md5("DESCRIBE" ":" uri))` with
`HA1 = good_pwd` when encrypted and `HA1 = md5(user ":" realm ":" good_pwd)`
otherwise, compared case-insensitively.  `md5` (Util/MD5.h, an external
collaborator) is a parameter. -/
def onAuthDigest (md5 : String → String) (realm auth_nonce : String) (a : DigestAttempt)
    (auth_event : Option (Bool × String)) : AuthResult :=
  if realm ≠ a.realm then .failed realm "realm not mached"
  else if auth_nonce ≠ a.nonce then .failed realm "nonce not mached"
  else if a.username = "" ∨ a.uri = "" ∨ a.response = "" then
    .failed realm "username/uri/response empty"
  else
    match auth_event with
    | none => .success
    | some (encrypted, good_pwd) =>
      let encrypted_pwd :=
        if encrypted then good_pwd
        else md5 (a.username ++ ":" ++ realm ++ ":" ++ good_pwd)
      let good_response :=
        md5 (encrypted_pwd ++ ":" ++ a.nonce ++ ":" ++ md5 ("DESCRIBE" ++ ":" ++ a.uri))
      if strcasecmpEq good_response a.response then .success
      else .failed realm "password mismatch when md5 auth"

/-- `RtspSession::onAuthBasic` (src/Rtsp/RtspSession.cpp): split the decoded
`user:passwd` string; fewer than two components is a 401; the auth-query
event must yield the cleartext password, and with no listener the code calls
the invoker with the client's own password (`invoker(false, pwd)`). -/
def onAuthBasic (realm user_passwd : String) (auth_event : Option (Bool × String)) : AuthResult :=
  match split user_passwd ':' with
  | _user :: pwd :: _ =>
    let good_pwd :=
      match auth_event with
      | some (_encrypted, g) => g
      | none => pwd
    if pwd = good_pwd then .success
    else .failed realm "password mismatch when base64 auth"
  | _ => .failed realm "can not find user and passwd when basic64 auth"

/-- A successful case-insensitive comparison against `.success` unfolds to
lower-cased equality. -/
theorem ite_strcasecmp_success (x y : String) (r m : String) :
    ((if strcasecmpEq x y then AuthResult.success else .failed r m) = .success ↔
      y.toLower = x.toLower) := by
  by_cases h : strcasecmpEq x y
  · have hxy : x.toLower = y.toLower := by simpa [strcasecmpEq] using h
    simp [h, hxy]
  · have hne : ¬y.toLower = x.toLower := by
      intro hxy
      exact h (by simp [strcasecmpEq, hxy])
    simp [h, hne]

/-- Claim C1: when the echoed realm and nonce match the session state and
username, uri, response are non-empty, a Digest attempt is accepted iff the
client's response equals `md5(HA1 : nonce : md5("DESCRIBE:" + uri))`
case-insensitively, where HA1 is the yielded value itself for an encrypted
yield and `md5(user:realm:pass)` for a cleartext yield. -/
theorem onAuthDigest_accept_iff (md5 : String → String) (realm auth_nonce : String)
    (a : DigestAttempt) (encrypted : Bool) (good_pwd : String)
    (hrealm : a.realm = realm) (hnonce : a.nonce = auth_nonce)
    (hu : a.username ≠ "") (huri : a.uri ≠ "") (hresp : a.response ≠ "") :
    (onAuthDigest md5 realm auth_nonce a (some (encrypted, good_pwd)) = .success ↔
      a.response.toLower =
        (md5 ((if encrypted then good_pwd
            else md5 (a.username ++ ":" ++ realm ++ ":" ++ good_pwd)) ++ ":" ++ auth_nonce ++
          ":" ++ md5 ("DESCRIBE:" ++ a.uri))).toLower) := by
  subst hrealm
  subst hnonce
  have hds : ("DESCRIBE" ++ ":" : String) = "DESCRIBE:" := rfl
  simp only [onAuthDigest, ne_eq, not_true_eq_false, if_false, hds]
  rw [if_neg (by simp [hu, huri, hresp])]
  exact ite_strcasecmp_success _ _ _ _

/-- Witness for `onAuthDigest_accept_iff` with the identity in place of md5
and an encrypted (HA1) yield. -/
theorem onAuthDigest_accept_iff_witness :
    (onAuthDigest (fun s => s) "zlm" "n0" ⟨"zlm", "n0", "u", "rtsp://h/a/s", "resp"⟩
        (some (true, "ha1")) = .success ↔
      ("resp" : String).toLower =
        ((fun s : String => s) ((if (true : Bool) then ("ha1" : String)
            else (fun s : String => s) ("u" ++ ":" ++ "zlm" ++ ":" ++ "ha1")) ++ ":" ++ "n0" ++
          ":" ++ (fun s : String => s) ("DESCRIBE:" ++ "rtsp://h/a/s"))).toLower) :=
  onAuthDigest_accept_iff (fun s => s) "zlm" "n0" ⟨"zlm", "n0", "u", "rtsp://h/a/s", "resp"⟩
    true "ha1" rfl rfl (by decide) (by decide) (by decide)

/-- Claim C9: when a stream requires authentication (non-empty realm) but no
auth-query listener exists, every attempt reaching the password check
succeeds: Basic for any decoded string splitting into at least user and
password, and Digest for any response once realm and nonce match and
username, uri, response are non-empty. -/
theorem no_auth_listener_accepts (realm : String) (hrealm : realm ≠ "") :
    (∀ user_passwd user pwd rest, split user_passwd ':' = user :: pwd :: rest →
      onAuthBasic realm user_passwd none = .success) ∧
    (∀ (md5 : String → String) (auth_nonce : String) (a : DigestAttempt),
      a.realm = realm → a.nonce = auth_nonce →
      a.username ≠ "" → a.uri ≠ "" → a.response ≠ "" →
      onAuthDigest md5 realm auth_nonce a none = .success) := by
  constructor
  · intro user_passwd user pwd rest h
    simp [onAuthBasic, h]
  · intro md5 auth_nonce a h1 h2 hu huri hresp
    subst h1
    subst h2
    simp only [onAuthDigest, ne_eq, not_true_eq_false, if_false]
    rw [if_neg (by simp [hu, huri, hresp])]

/-- Witness for `no_auth_listener_accepts` on concrete Basic and Digest
attempts. -/
theorem no_auth_listener_accepts_witness :
    onAuthBasic "zlm" "user:pass" none = .success ∧
    onAuthDigest (fun s => s) "zlm" "n1" ⟨"zlm", "n1", "u", "uri", "r"⟩ none = .success :=
  ⟨(no_auth_listener_accepts "zlm" (by decide)).1 "user:pass" "user" "pass" [] (by decide),
    (no_auth_listener_accepts "zlm" (by decide)).2 (fun s => s) "n1" ⟨"zlm", "n1", "u", "uri", "r"⟩
      rfl rfl (by decide) (by decide) (by decide)⟩

/-- The four RTP transport modes (`Rtsp::eRtpType`): Invalid, TCP, UDP,
multicast. -/
inductive RtpType where
  | invalid
  | tcp
  | udp
  | multicast
deriving DecidableEq

/-- Substring containment, `s.find(pat) != std::string::npos`. -/
def containsSub (s pat : String) : Bool := (strFind pat.toList s.toList).isSome

/-- Transport requested by the client's `Transport:` header in
`handleReq_Setup`: "TCP" anywhere means TCP, else "multicast" means
multicast, else UDP. -/
def parseSetupTransport (strTransport : String) : RtpType :=
  if containsSub strTransport "TCP" then .tcp
  else if containsSub strTransport "multicast" then .multicast
  else .udp

/-- The transport-selection prefix of `RtspSession::handleReq_Setup`
(src/Rtsp/RtspSession.cpp): only when `_rtp_type` is still Invalid is the
header parsed; a configured force-policy (`Rtsp::kRtpTransportType`) that
disagrees sends "461 Unsupported transport" and leaves the state unchanged;
otherwise the parsed transport is stored.  The boolean component is true
exactly when the 461 response was sent. -/
def setupSelectTransport (rtp_type config : RtpType) (strTransport : String) : RtpType × Bool :=
  if rtp_type = .invalid then
    let rtpType := parseSetupTransport strTransport
    if config ≠ .invalid ∧ config ≠ rtpType then (rtp_type, true)
    else (rtpType, false)
  else (rtp_type, false)

/-- Claim C3: the transport is selected at the first SETUP that passes the
policy check and never changes afterwards (later SETUPs run with the already
selected transport, whatever their header says); when the configuration
forces a transport, a first SETUP requesting a different one is answered
with 461 and selects nothing. -/
theorem setup_transport_policy (cur config : RtpType) (hdr : String) :
    (cur = .invalid → config = .invalid ∨ config = parseSetupTransport hdr →
      setupSelectTransport cur config hdr = (parseSetupTransport hdr, false)) ∧
    (cur = .invalid → config ≠ .invalid → config ≠ parseSetupTransport hdr →
      setupSelectTransport cur config hdr = (.invalid, true)) ∧
    (cur ≠ .invalid → setupSelectTransport cur config hdr = (cur, false)) ∧
    (∀ hdrs : List String, cur ≠ .invalid →
      hdrs.foldl (fun st h => (setupSelectTransport st config h).1) cur = cur) := by
  refine ⟨?_, ?_, ?_, ?_⟩
  · intro h1 h2
    subst h1
    rcases h2 with h2 | h2 <;> simp [setupSelectTransport, h2]
  · intro h1 h2 h3
    subst h1
    simp [setupSelectTransport, h2, h3]
  · intro h1
    simp [setupSelectTransport, h1]
  · intro hdrs
    induction hdrs with
    | nil => intro h; rfl
    | cons h t ih =>
      intro hcur
      simp only [List.foldl_cons, setupSelectTransport, if_neg hcur]
      exact ih hcur

/-- Witness for `setup_transport_policy`: a forced-TCP configuration rejects
a first UDP SETUP with 461, and a later SETUP cannot change a selected
transport. -/
theorem setup_transport_policy_witness :
    setupSelectTransport .invalid .tcp "RTP/AVP/UDP;unicast;client_port=8000-8001" =
        (.invalid, true) ∧
    setupSelectTransport .tcp .invalid "RTP/AVP/UDP;unicast;client_port=8000-8001" =
        (.tcp, false) :=
  ⟨(setup_transport_policy .invalid .tcp "RTP/AVP/UDP;unicast;client_port=8000-8001").2.1
      rfl (by decide) (by decide),
    (setup_transport_policy .tcp .invalid "RTP/AVP/UDP;unicast;client_port=8000-8001").2.2.1
      (by decide)⟩

/-- State of one pending `findAsync_l` wait (src/Common/macros.cpp): the
`atomic_flag` guarding `cb_once`, how many times the user callback has run,
and whether the media-changed listener and the delayed timeout task are
still installed. -/
structure FindAsyncState where
  invoked : Bool
  cb_count : Nat
  listener_active : Bool
  timeout_active : Bool
deriving DecidableEq

/-- State right after `findAsync_l` found the source absent and installed
both the media-changed listener and the timeout task. -/
def findAsyncInit : FindAsyncState :=
  { invoked := false, cb_count := 0, listener_active := true, timeout_active := true }

/-- `cb_once`: run the user callback only when `invoked->test_and_set()`
finds the flag clear. -/
def cbOnce (s : FindAsyncState) : FindAsyncState :=
  if s.invoked then s else { s with invoked := true, cb_count := s.cb_count + 1 }

/-- `cancel_all`: cancel the delayed timeout task and remove the
media-changed listener together. -/
def cancelAll (s : FindAsyncState) : FindAsyncState :=
  { s with timeout_active := false, listener_active := false }

/-- The three completion paths racing for one `findAsync_l` wait. -/
inductive FireEvent where
  | timeout
  | registration
  | closePlayer
deriving DecidableEq

/-- One completion-path firing, mirroring `findAsync_l`: the timeout task
fires only while scheduled, removes the listener and runs `cb_once`; the
registration listener fires only while registered and runs `cancel_all`
then `cb_once`; the `close_player` closure survives in the broadcast
subscriber and may be called at any time, running `cancel_all` then
`cb_once`. -/
def fireStep (s : FindAsyncState) : FireEvent → FindAsyncState
  | .timeout =>
    if s.timeout_active then
      cbOnce { s with timeout_active := false, listener_active := false }
    else s
  | .registration =>
    if s.listener_active then cbOnce (cancelAll s) else s
  | .closePlayer => cbOnce (cancelAll s)

/-- An arbitrary interleaving of completion-path firings, serialized by the
session's poller. -/
def runFires (s : FindAsyncState) (evs : List FireEvent) : FindAsyncState :=
  evs.foldl fireStep s

/-- The state after the user callback has run once and everything is
cancelled. -/
def firedState : FindAsyncState :=
  { invoked := true, cb_count := 1, listener_active := false, timeout_active := false }

/-- After the callback has run and both waiters are cancelled, no further
firing changes anything. -/
theorem fireStep_fired (e : FireEvent) (s : FindAsyncState) (h : s = firedState) :
    fireStep s e = s := by
  subst h
  cases e <;> rfl

/-- The fired state absorbs any further sequence of firings. -/
theorem runFires_fired (evs : List FireEvent) (s : FindAsyncState) (h : s = firedState) :
    runFires s evs = s := by
  induction evs with
  | nil => rfl
  | cons e rest ih =>
    show runFires (fireStep s e) rest = s
    rw [fireStep_fired e s h]
    exact ih
  
/-- From the freshly armed state, every completion path leads to the fired
state. -/
theorem fireStep_init (e : FireEvent) : fireStep findAsyncInit e = firedState := by
  cases e <;> rfl

/-- Claim C5: for a wait whose source was initially absent, the user callback
runs at most once over any interleaving of the three completion paths,
exactly once as soon as any of them fires, and once it has run both the
registration listener and the timeout task are cancelled. -/
theorem find_async_exactly_once (evs : List FireEvent) :
    (runFires findAsyncInit evs).cb_count ≤ 1 ∧
    (evs ≠ [] → (runFires findAsyncInit evs).cb_count = 1) ∧
    ((runFires findAsyncInit evs).invoked = true →
      (runFires findAsyncInit evs).listener_active = false ∧
      (runFires findAsyncInit evs).timeout_active = false) := by
  cases evs with
  | nil => simp [runFires, findAsyncInit]
  | cons e rest =>
    have hrun : runFires findAsyncInit (e :: rest) = firedState := by
      show runFires (fireStep findAsyncInit e) rest = firedState
      rw [fireStep_init e]
      exact runFires_fired rest firedState rfl
    rw [hrun]
    refine ⟨by decide, fun _ => by decide, fun _ => by decide⟩

/-- Witness for `find_async_exactly_once`: a registration event racing with
the timeout still runs the callback exactly once. -/
theorem find_async_exactly_once_witness :
    (runFires findAsyncInit [.registration, .timeout]).cb_count = 1 :=
  (find_async_exactly_once [.registration, .timeout]).2.1 (by decide)

/-- Per-track SDP state consulted by the embedded handlers; `control` stands
for `getControlUrl(_content_base)`, computed by the external SDP
collaborator, and `type` is the numeric `TrackType`. -/
structure SdpTrack where
  pt : Int := 0
  type : Int := 0
  control : String := ""
  interleaved : Int := 0
  inited : Bool := false
deriving DecidableEq

/-- Observable outcome of `handleReq_RECORD`: the 454 reply, a shutdown that
writes no response, or the 200 reply with its `RTP-Info` url list and
whether `setSocketFlags` was applied. -/
inductive RecordOutcome where
  | sent454
  | shutdownNoResponse (reason : String)
  | sent200 (rtp_info : List String) (tuned_socket : Bool)
deriving DecidableEq

/-- `RtspSession::handleReq_RECORD` (src/Rtsp/RtspSession.cpp): an empty
track list or a mismatched Session header sends 454; a track that was never
SETUP shuts the session down with "track not setuped" (no response is
written); otherwise a 200 with one `url=` entry per track is sent, and the
socket flags are tuned when the transport is TCP. -/
def handleReq_RECORD (tracks : List SdpTrack) (session_header sessionid : String)
    (rtp_type : RtpType) : RecordOutcome :=
  if tracks.isEmpty ∨ session_header ≠ sessionid then .sent454
  else if tracks.all (fun t => t.inited) then
    .sent200 (tracks.map (fun t => "url=" ++ t.control)) (decide (rtp_type = RtpType.tcp))
  else .shutdownNoResponse "track not setuped"

/-- RTSP status code written to the socket by a RECORD outcome, if any. -/
def RecordOutcome.statusCode : RecordOutcome → Option Nat
  | .sent454 => some 454
  | .shutdownNoResponse _ => none
  | .sent200 _ _ => some 200

/-- Claim C6 counterexample: a RECORD whose Session header matches but with a
track not yet SETUP does not answer 400 — no status line is written at all;
the session is shut down with "track not setuped". -/
theorem record_track_not_setup_no_400 :
    handleReq_RECORD [{ inited := false }] "S" "S" .tcp =
        .shutdownNoResponse "track not setuped" ∧
      (handleReq_RECORD [{ inited := false }] "S" "S" .tcp).statusCode ≠ some 400 := by
  decide

/-- Claim C6 (amended): a RECORD whose Session header matches but with at
least one track not SETUP writes no response and shuts the session down with
"track not setuped" (so the publisher does not go live); a mismatched
session id is answered 454; with all tracks SETUP the 200 carries one `url=`
entry per track. -/
theorem record_outcomes (tracks : List SdpTrack) (session_header sessionid : String)
    (rtp_type : RtpType) :
    (tracks ≠ [] → session_header = sessionid → tracks.all (fun t => t.inited) = false →
      handleReq_RECORD tracks session_header sessionid rtp_type =
        .shutdownNoResponse "track not setuped") ∧
    (session_header ≠ sessionid →
      handleReq_RECORD tracks session_header sessionid rtp_type = .sent454) ∧
    (tracks ≠ [] → session_header = sessionid → tracks.all (fun t => t.inited) = true →
      handleReq_RECORD tracks session_header sessionid rtp_type =
        .sent200 (tracks.map (fun t => "url=" ++ t.control))
          (decide (rtp_type = RtpType.tcp))) := by
  refine ⟨?_, ?_, ?_⟩
  · intro h1 h2 h3
    simp [handleReq_RECORD, h1, h2, h3]
  · intro h
    simp [handleReq_RECORD, h]
  · intro h1 h2 h3
    simp [handleReq_RECORD, h1, h2, h3]

/-- Witness for `record_outcomes`: one un-SETUP track under a matching
session shuts down silently. -/
theorem record_outcomes_witness :
    handleReq_RECORD [{ control := "rtsp://h/a/s/trackID=0", inited := false }]
        "sess" "sess" .udp = .shutdownNoResponse "track not setuped" :=
  (record_outcomes [{ control := "rtsp://h/a/s/trackID=0", inited := false }]
    "sess" "sess" .udp).1 (by decide) rfl (by decide)

/-- The liveness-relevant per-session state of `RtspSession`: `created_ms`
is `_alive_ticker.createdTime()`, `elapsed_ms` is
`_alive_ticker.elapsedTime()` (milliseconds since the last reset), plus the
session id, whether `_push_src` is held, the transport and `_bytes_usage`. -/
structure SessionLiveness where
  created_ms : Nat
  elapsed_ms : Nat
  sessionid : String
  has_push_src : Bool
  rtp_type : RtpType
  bytes_usage : Nat

/-- `RtspSession::onManager` (src/Rtsp/RtspSession.cpp): a connection past
the handshake deadline without a session id is shut down; a publisher idle
longer than the keep-alive interval is shut down; a UDP player idle longer
than four times the keep-alive interval is shut down.  Returns the shutdown
reason, if any. -/
def onManager (handshake_sec keep_alive_sec : Nat) (s : SessionLiveness) : Option String :=
  if s.created_ms > handshake_sec * 1000 ∧ s.sessionid = "" then some "illegal connection"
  else if s.has_push_src = true ∧ s.elapsed_ms > keep_alive_sec * 1000 then
    some "pusher session timeout"
  else if s.has_push_src = false ∧ s.rtp_type = .udp ∧ s.elapsed_ms > keep_alive_sec * 4000 then
    some "rtp over udp player timeout"
  else none

/-- `RtspSession::onRecv`: every inbound buffer resets the liveness ticker
and is counted into `_bytes_usage`. -/
def onRecv (s : SessionLiveness) (nbytes : Nat) : SessionLiveness :=
  { s with elapsed_ms := 0, bytes_usage := s.bytes_usage + nbytes }

/-- Claim C7: the liveness ticker is reset on every inbound buffer, and the
idle thresholds are asymmetric: a publisher session (with a session id) is
shut down exactly when idle longer than one keep-alive interval, while a UDP
player session is shut down only when idle longer than four keep-alive
intervals. -/
theorem liveness_ticker_and_timeouts (handshake_sec keep_alive_sec : Nat)
    (s : SessionLiveness) (nbytes : Nat) :
    ((onRecv s nbytes).elapsed_ms = 0) ∧
    (s.sessionid ≠ "" → s.has_push_src = true →
      (onManager handshake_sec keep_alive_sec s = some "pusher session timeout" ↔
        s.elapsed_ms > keep_alive_sec * 1000)) ∧
    (s.sessionid ≠ "" → s.has_push_src = false → s.rtp_type = .udp →
      (onManager handshake_sec keep_alive_sec s ≠ none ↔
        s.elapsed_ms > 4 * (keep_alive_sec * 1000))) := by
  refine ⟨rfl, ?_, ?_⟩
  · intro hsid hpush
    by_cases hel : s.elapsed_ms > keep_alive_sec * 1000 <;>
      simp [onManager, hsid, hpush, hel]
  · intro hsid hpush hudp
    have h4 : 4 * (keep_alive_sec * 1000) = keep_alive_sec * 4000 := by ring
    rw [h4]
    by_cases hel : s.elapsed_ms > keep_alive_sec * 4000 <;>
      simp [onManager, hsid, hpush, hudp, hel]

/-- Witness for `liveness_ticker_and_timeouts`: a publisher idle for 5001 ms
with a 5-second keep-alive is shut down, and its ticker resets on input. -/
theorem liveness_ticker_and_timeouts_witness :
    (onRecv ⟨0, 5001, "abc123def456", true, .tcp, 0⟩ 10).elapsed_ms = 0 ∧
    onManager 15 5 ⟨0, 5001, "abc123def456", true, .tcp, 0⟩ =
      some "pusher session timeout" :=
  ⟨(liveness_ticker_and_timeouts 15 5 ⟨0, 5001, "abc123def456", true, .tcp, 0⟩ 10).1,
    ((liveness_ticker_and_timeouts 15 5 ⟨0, 5001, "abc123def456", true, .tcp, 0⟩ 10).2.1
      (by decide) rfl).mpr (by decide)⟩

/-- `RtspSession::getTrackIndexByPT`: first track whose payload type matches,
else index 0 for a single-track list, else a shutdown exception. -/
def getTrackIndexByPT (tracks : List SdpTrack) (pt : Int) : Except String Nat :=
  match tracks.findIdx? (fun t => decide (pt = t.pt)) with
  | some i => .ok i
  | none =>
    if tracks.length = 1 then .ok 0
    else .error "no such track with pt"

/-- `RtspSession::getTrackIndexByTrackType`: same shape over the track type. -/
def getTrackIndexByTrackType (tracks : List SdpTrack) (type : Int) : Except String Nat :=
  match tracks.findIdx? (fun t => decide (type = t.type)) with
  | some i => .ok i
  | none =>
    if tracks.length = 1 then .ok 0
    else .error "no such track with type"

/-- `RtspSession::getTrackIndexByControlUrl`: a track matches when its
control URL is a prefix of the requested URL
(`control_url.find(getControlUrl(..)) == 0`). -/
def getTrackIndexByControlUrl (tracks : List SdpTrack) (control_url : String) :
    Except String Nat :=
  match tracks.findIdx? (fun t => t.control.isPrefixOf control_url) with
  | some i => .ok i
  | none =>
    if tracks.length = 1 then .ok 0
    else .error "no such track with control url"

/-- `RtspSession::getTrackIndexByInterleaved`: same shape over the
interleaved channel. -/
def getTrackIndexByInterleaved (tracks : List SdpTrack) (interleaved : Int) :
    Except String Nat :=
  match tracks.findIdx? (fun t => decide (t.interleaved = interleaved)) with
  | some i => .ok i
  | none =>
    if tracks.length = 1 then .ok 0
    else .error "no such track with interleaved"

/-- A predicate false on every element makes `findIdx?` miss. -/
theorem findIdx?_eq_none_of_all_false {α : Type} (p : α → Bool) (l : List α)
    (h : ∀ x ∈ l, p x = false) : l.findIdx? p = none :=
  List.findIdx?_eq_none_iff.mpr h

/-- Claim C10: with exactly one SDP track, every track lookup (by payload
type, track type, control URL, interleaved channel) returns index 0 even
when the key matches nothing; with two or more tracks, a key matching no
track raises a shutdown error instead. -/
theorem track_index_single_fallback (tracks : List SdpTrack) (pt type interleaved : Int)
    (control_url : String) :
    (tracks.length = 1 →
      getTrackIndexByPT tracks pt = .ok 0 ∧
      getTrackIndexByTrackType tracks type = .ok 0 ∧
      getTrackIndexByControlUrl tracks control_url = .ok 0 ∧
      getTrackIndexByInterleaved tracks interleaved = .ok 0) ∧
    (2 ≤ tracks.length →
      ((∀ t ∈ tracks, pt ≠ t.pt) →
        getTrackIndexByPT tracks pt = .error "no such track with pt") ∧
      ((∀ t ∈ tracks, type ≠ t.type) →
        getTrackIndexByTrackType tracks type = .error "no such track with type") ∧
      ((∀ t ∈ tracks, t.control.isPrefixOf control_url = false) →
        getTrackIndexByControlUrl tracks control_url =
          .error "no such track with control url") ∧
      ((∀ t ∈ tracks, t.interleaved ≠ interleaved) →
        getTrackIndexByInterleaved tracks interleaved =
          .error "no such track with interleaved")) := by
  constructor
  · intro hlen
    obtain ⟨t, rfl⟩ := List.length_eq_one.mp hlen
    refine ⟨?_, ?_, ?_, ?_⟩
    · by_cases h : pt = t.pt <;>
        simp [getTrackIndexByPT, List.findIdx?_cons, h]
    · by_cases h : type = t.type <;>
        simp [getTrackIndexByTrackType, List.findIdx?_cons, h]
    · by_cases h : t.control.isPrefixOf control_url <;>
        simp [getTrackIndexByControlUrl, List.findIdx?_cons, h]
    · by_cases h : t.interleaved = interleaved <;>
        simp [getTrackIndexByInterleaved, List.findIdx?_cons, h]
  · intro hlen
    have hne1 : ¬tracks.length = 1 := by omega
    refine ⟨?_, ?_, ?_, ?_⟩
    · intro hall
      rw [getTrackIndexByPT,
        findIdx?_eq_none_of_all_false _ _ (fun x hx => by simp [hall x hx])]
      simp [hne1]
    · intro hall
      rw [getTrackIndexByTrackType,
        findIdx?_eq_none_of_all_false _ _ (fun x hx => by simp [hall x hx])]
      simp [hne1]
    · intro hall
      rw [getTrackIndexByControlUrl,
        findIdx?_eq_none_of_all_false _ _ (fun x hx => hall x hx)]
      simp [hne1]
    · intro hall
      rw [getTrackIndexByInterleaved,
        findIdx?_eq_none_of_all_false _ _ (fun x hx => by simp [hall x hx])]
      simp [hne1]

/-- Witness for `track_index_single_fallback`: a single-track list swallows a
mismatched payload type, a two-track list rejects it. -/
theorem track_index_single_fallback_witness :
    getTrackIndexByPT [{ pt := 96 }] 97 = .ok 0 ∧
    getTrackIndexByPT [{ pt := 96 }, { pt := 8 }] 97 = .error "no such track with pt" :=
  ⟨((track_index_single_fallback [{ pt := 96 }] 97 0 0 "").1 rfl).1,
    ((track_index_single_fallback [{ pt := 96 }, { pt := 8 }] 97 0 0 "").2
      (by decide)).1 (by decide)⟩

/-- Modelled from the spec: `Parser::parseArgs` (src/Common/Parser.cpp is not
under src/) splits the query string on "&" into `key=value` pairs (a pair
without '=' keeps an empty value). -/
def parseArgs (s : Str) : List (Str × Str) :=
  (tkSplit s '&').filterMap (fun kv =>
    match strFind ['='] kv with
    | some pos => some (kv.take pos, kv.drop (pos + 1))
    | none => if kv.isEmpty then none else some (kv, []))

/-- First binding of a key in a parsed query (`multimap::find`). -/
def argsLookup (kv : List (Str × Str)) (key : Str) : Option Str :=
  (kv.find? (fun pr => decide (pr.1 = key))).map (fun pr => pr.2)

/-- The tail of `MediaInfo::parse`: a `vhost` query key overrides the
host-derived vhost, then the default vhost is substituted when virtual
hosting is disabled or the vhost is empty. -/
def pickVhost (enableVhost : Bool) (kv : List (Str × Str)) (fallback : Str) : Str :=
  let v1 :=
    match argsLookup kv VHOST_KEY.toList with
    | some v => v
    | none => fallback
  if enableVhost = false ∨ v1.isEmpty then DEFAULT_VHOST.toList else v1

/-- The `MediaInfo` fields assigned by `MediaInfo::parse` (the port, produced
by the external `splitUrl`, is omitted). -/
structure MediaInfo where
  schema : Str := []
  vhost : Str := []
  app : Str := []
  stream : Str := []
  host : Str := []
  params : Str := []
  full_url : Str := []
deriving DecidableEq

/-- `MediaInfo::parse` (src/Common/macros.cpp): split off the `?`-query
first, then the schema before "://" (a missing "://" leaves the whole URL,
`schema_pos = -3`), then split the remainder on '/': the first segment gives
host and vhost (default vhost for "localhost" or an IP literal), the second
is the app, segments from the third on are appended each with a trailing
'/' and the final '/' is popped to form the stream; finally the `vhost`
query key and default-vhost substitution apply.  `splitUrlHost` (the host
part of the external `splitUrl`) and the toolkit `isIP` are parameters. -/
def MediaInfo.parse (enableVhost : Bool) (splitUrlHost : Str → Str) (isIP : Str → Bool)
    (url_in : Str) : MediaInfo :=
  let url_params :=
    match strFind ['?'] url_in with
    | some pos => (url_in.take pos, url_in.drop (pos + 1))
    | none => (url_in, ([] : Str))
  let url := url_params.1
  let params := url_params.2
  let schema_rest :=
    match strFind [':', '/', '/'] url with
    | some pos => (url.take pos, url.drop (pos + 3))
    | none => (([] : Str), url)
  let schema := schema_rest.1
  let split_vec := tkSplit schema_rest.2 '/'
  let host_vhost :=
    match split_vec.head? with
    | some v0 =>
      let hst := splitUrlHost v0
      (hst, if hst = "localhost".toList ∨ isIP hst = true then DEFAULT_VHOST.toList else hst)
    | none => (([] : Str), ([] : Str))
  let app := split_vec.getD 1 []
  let stream :=
    if 2 < split_vec.length then
      let sid := (split_vec.drop 2).foldl (fun acc seg => acc ++ seg ++ ['/']) []
      if sid.getLast? = some '/' then sid.dropLast else sid
    else []
  { schema := schema,
    vhost := pickVhost enableVhost (parseArgs params) host_vhost.2,
    app := app, stream := stream, host := host_vhost.1,
    params := params, full_url := url_in }

/-- Path segments joined by '/'. -/
def joinSlash : List Str → Str
  | [] => []
  | [x] => x
  | x :: y :: t => x ++ '/' :: joinSlash (y :: t)

/-- A character absent from a string is never found. -/
theorem strFind_single_none (c : Char) (s : Str) (h : c ∉ s) : strFind [c] s = none := by
  induction s with
  | nil => rfl
  | cons x t ih =>
    have hxc : ¬c = x := fun hcx => h (hcx ▸ List.mem_cons_self x t)
    have hpre : [c].isPrefixOf (x :: t) = false := by
      simp [List.isPrefixOf, hxc]
    rw [strFind, hpre]
    simp only [Bool.false_eq_true, if_false]
    rw [ih (fun hm => h (List.mem_cons_of_mem x hm))]
    rfl

/-- The first occurrence of a character placed right after a clean prefix is
at the prefix length. -/
theorem strFind_single_append (c : Char) (s r : Str) (h : c ∉ s) :
    strFind [c] (s ++ c :: r) = some s.length := by
  induction s with
  | nil =>
    rw [List.nil_append, strFind]
    simp [List.isPrefixOf]
  | cons x t ih =>
    have hxc : ¬c = x := fun hcx => h (hcx ▸ List.mem_cons_self x t)
    have hpre : [c].isPrefixOf (x :: (t ++ c :: r)) = false := by
      simp [List.isPrefixOf, hxc]
    rw [List.cons_append, strFind, hpre]
    simp only [Bool.false_eq_true, if_false]
    rw [ih (fun hm => h (List.mem_cons_of_mem x hm))]
    rfl

/-- The first occurrence of "://" after a colon-free schema is at the schema
length. -/
theorem strFind_scheme_append (s r : Str) (h : (':' : Char) ∉ s) :
    strFind [':', '/', '/'] (s ++ ':' :: '/' :: '/' :: r) = some s.length := by
  induction s with
  | nil =>
    rw [List.nil_append, strFind]
    simp [List.isPrefixOf]
  | cons x t ih =>
    have hxc : ¬(':' : Char) = x := fun hcx => h (hcx ▸ List.mem_cons_self x t)
    have hpre : [':', '/', '/'].isPrefixOf (x :: (t ++ ':' :: '/' :: '/' :: r)) = false := by
      simp [List.isPrefixOf, hxc]
    rw [List.cons_append, strFind, hpre]
    simp only [Bool.false_eq_true, if_false]
    rw [ih (fun hm => h (List.mem_cons_of_mem x hm))]
    rfl

/-- `substr(0, pos)` of a clean prefix recovers the prefix. -/
theorem take_append_cons (l : Str) (c : Char) (m : Str) :
    (l ++ c :: m).take l.length = l := by
  induction l with
  | nil => rfl
  | cons x t ih => simp [ih]

/-- `substr(pos + 1)` after a single-character separator recovers the rest. -/
theorem drop_append_cons (l : Str) (c : Char) (m : Str) :
    (l ++ c :: m).drop (l.length + 1) = m := by
  induction l with
  | nil => rfl
  | cons x t ih => simp [ih]

/-- `substr(pos + 3)` after the three-character "://" recovers the rest. -/
theorem drop_append_cons3 (l : Str) (c1 c2 c3 : Char) (m : Str) :
    (l ++ c1 :: c2 :: c3 :: m).drop (l.length + 3) = m := by
  induction l with
  | nil => rfl
  | cons x t ih => simp [ih]

/-- A delimiter-free tail flushes as one token. -/
theorem splitCore_no_delim (d : Char) (x acc : Str) (hx : d ∉ x)
    (hne : acc ≠ [] ∨ x ≠ []) : splitCore d x acc = [acc.reverse ++ x] := by
  induction x generalizing acc with
  | nil =>
    have hacc : acc ≠ [] := by
      rcases hne with h | h
      · exact h
      · exact absurd rfl h
    rw [splitCore]
    simp [List.isEmpty_iff, hacc]
  | cons c t ih =>
    have hcd : ¬c = d := fun hc => hx (hc ▸ List.mem_cons_self c t)
    rw [splitCore, if_neg hcd]
    rw [ih (c :: acc) (fun hm => hx (List.mem_cons_of_mem c hm)) (Or.inl (by simp))]
    simp

/-- Scanning up to the next delimiter flushes the token before it. -/
theorem splitCore_append_delim (d : Char) (x acc rest : Str) (hx : d ∉ x)
    (hne : acc ≠ [] ∨ x ≠ []) :
    splitCore d (x ++ d :: rest) acc = (acc.reverse ++ x) :: splitCore d rest [] := by
  induction x generalizing acc with
  | nil =>
    have hacc : acc ≠ [] := by
      rcases hne with h | h
      · exact h
      · exact absurd rfl h
    rw [List.nil_append, splitCore, if_pos rfl]
    simp [List.isEmpty_iff, hacc]
  | cons c t ih =>
    have hcd : ¬c = d := fun hc => hx (hc ▸ List.mem_cons_self c t)
    rw [List.cons_append, splitCore, if_neg hcd]
    rw [ih (c :: acc) (fun hm => hx (List.mem_cons_of_mem c hm)) (Or.inl (by simp))]
    simp

/-- Splitting a '/'-joined list of non-empty '/'-free segments recovers the
segments. -/
theorem splitCore_joinSlash (segs : List Str) (h0 : segs ≠ [])
    (helem : ∀ x ∈ segs, x ≠ [] ∧ '/' ∉ x) :
    splitCore '/' (joinSlash segs) [] = segs := by
  induction segs with
  | nil => exact absurd rfl h0
  | cons x t ih =>
    cases t with
    | nil =>
      obtain ⟨hx0, hxm⟩ := helem x (by simp)
      rw [joinSlash]
      rw [splitCore_no_delim '/' x [] hxm (Or.inr hx0)]
      rfl
    | cons y tt =>
      obtain ⟨hx0, hxm⟩ := helem x (by simp)
      rw [joinSlash]
      rw [splitCore_append_delim '/' x [] _ hxm (Or.inr hx0)]
      rw [ih (by simp) (fun z hz => helem z (List.mem_cons_of_mem x hz))]
      rfl

/-- Splitting the path `host/app/stream...` on '/' yields host, app and the
stream segments. -/
theorem tkSplit_path (h a : Str) (segs : List Str)
    (hh : '/' ∉ h) (hh0 : h ≠ []) (ha : '/' ∉ a) (ha0 : a ≠ [])
    (h0 : segs ≠ []) (helem : ∀ x ∈ segs, x ≠ [] ∧ '/' ∉ x) :
    tkSplit (h ++ '/' :: (a ++ '/' :: joinSlash segs)) '/' = h :: a :: segs := by
  have hne : (h ++ '/' :: (a ++ '/' :: joinSlash segs)).isEmpty = false := by
    cases h with
    | nil => exact absurd rfl hh0
    | cons c t => rfl
  rw [tkSplit, hne]
  simp only [Bool.false_eq_true, if_false]
  rw [splitCore_append_delim '/' h [] _ hh (Or.inr hh0)]
  rw [splitCore_append_delim '/' a [] _ ha (Or.inr ha0)]
  rw [splitCore_joinSlash segs h0 helem]
  rfl

/-- The stream-building fold is append-homomorphic in its accumulator. -/
theorem streamFold_acc (segs : List Str) (acc : Str) :
    segs.foldl (fun acc seg => acc ++ seg ++ ['/']) acc =
      acc ++ segs.foldl (fun acc seg => acc ++ seg ++ ['/']) [] := by
  induction segs generalizing acc with
  | nil => simp
  | cons x t ih =>
    rw [List.foldl_cons, List.foldl_cons, ih (acc ++ x ++ ['/']), ih ([] ++ x ++ ['/'])]
    simp

/-- The stream-building fold produces the '/'-joined segments plus one
trailing '/'. -/
theorem streamFold_eq (segs : List Str) (h0 : segs ≠ []) :
    segs.foldl (fun acc seg => acc ++ seg ++ ['/']) [] = joinSlash segs ++ ['/'] := by
  induction segs with
  | nil => exact absurd rfl h0
  | cons x t ih =>
    cases t with
    | nil => simp [joinSlash]
    | cons y tt =>
      rw [List.foldl_cons, streamFold_acc, ih (by simp), joinSlash]
      simp

/-- Claim C8: `MediaInfo::parse` splits off the part after '?' as the query
string first, then extracts the schema before "://", then splits the
remaining path on '/': the first segment after the host is the app, the
remaining segments joined by '/' form the stream, and a `vhost` key present
in the query string overrides the vhost derived from the host. -/
theorem media_info_parse_pipeline (enableVhost : Bool) (splitUrlHost : Str → Str)
    (isIP : Str → Bool) (s h a : Str) (segs : List Str) (p : Str)
    (hs : (':' : Char) ∉ s)
    (hq : ('?' : Char) ∉ s ++ ':' :: '/' :: '/' :: (h ++ '/' :: (a ++ '/' :: joinSlash segs)))
    (hh : ('/' : Char) ∉ h) (hh0 : h ≠ [])
    (ha : ('/' : Char) ∉ a) (ha0 : a ≠ [])
    (hsegs : segs ≠ []) (helem : ∀ x ∈ segs, x ≠ [] ∧ ('/' : Char) ∉ x) :
    (MediaInfo.parse enableVhost splitUrlHost isIP
        ((s ++ ':' :: '/' :: '/' :: (h ++ '/' :: (a ++ '/' :: joinSlash segs))) ++ '?' :: p)) =
      { schema := s,
        vhost := pickVhost enableVhost (parseArgs p)
          (if splitUrlHost h = "localhost".toList ∨ isIP (splitUrlHost h) = true
            then DEFAULT_VHOST.toList else splitUrlHost h),
        app := a,
        stream := joinSlash segs,
        host := splitUrlHost h,
        params := p,
        full_url :=
          (s ++ ':' :: '/' :: '/' :: (h ++ '/' :: (a ++ '/' :: joinSlash segs))) ++
            '?' :: p } ∧
    (∀ v, argsLookup (parseArgs p) VHOST_KEY.toList = some v → enableVhost = true → v ≠ [] →
      (MediaInfo.parse enableVhost splitUrlHost isIP
        ((s ++ ':' :: '/' :: '/' :: (h ++ '/' :: (a ++ '/' :: joinSlash segs))) ++
          '?' :: p)).vhost = v) := by
  have hfull := strFind_single_append '?'
    (s ++ ':' :: '/' :: '/' :: (h ++ '/' :: (a ++ '/' :: joinSlash segs))) p hq
  have hsch := strFind_scheme_append s (h ++ '/' :: (a ++ '/' :: joinSlash segs)) hs
  have hsplit := tkSplit_path h a segs hh hh0 ha ha0 hsegs helem
  have hlen : 2 < segs.length + 1 + 1 := by
    have := List.length_pos.mpr hsegs
    omega
  have hfold := streamFold_eq segs hsegs
  have hkey : MediaInfo.parse enableVhost splitUrlHost isIP
      ((s ++ ':' :: '/' :: '/' :: (h ++ '/' :: (a ++ '/' :: joinSlash segs))) ++ '?' :: p) =
      { schema := s,
        vhost := pickVhost enableVhost (parseArgs p)
          (if splitUrlHost h = "localhost".toList ∨ isIP (splitUrlHost h) = true
            then DEFAULT_VHOST.toList else splitUrlHost h),
        app := a,
        stream := joinSlash segs,
        host := splitUrlHost h,
        params := p,
        full_url :=
          (s ++ ':' :: '/' :: '/' :: (h ++ '/' :: (a ++ '/' :: joinSlash segs))) ++
            '?' :: p } := by
    simp only [MediaInfo.parse, hfull, take_append_cons, drop_append_cons, hsch,
      drop_append_cons3, hsplit, List.head?_cons, List.getD_cons_succ, List.getD_cons_zero,
      List.length_cons, hlen, if_true, List.drop_succ_cons, List.drop_zero, hfold,
      List.getLast?_concat, List.dropLast_concat]
  refine ⟨hkey, ?_⟩
  intro v hv hen hv0
  rw [hkey]
  subst hen
  simp only [pickVhost, hv]
  simp [List.isEmpty_iff, hv0]

/-- Witness for `media_info_parse_pipeline`: the `vhost` query key of
`rtsp://example.com/live/ch/sub?vhost=custom.com` overrides the host-derived
vhost. -/
theorem media_info_parse_pipeline_witness :
    (MediaInfo.parse true (fun x => x) (fun _ => false)
        (("rtsp".toList ++ ':' :: '/' :: '/' ::
          ("example.com".toList ++ '/' :: ("live".toList ++ '/' ::
            joinSlash ["ch".toList, "sub".toList]))) ++
          '?' :: "vhost=custom.com".toList)).vhost = "custom.com".toList :=
  (media_info_parse_pipeline true (fun x => x) (fun _ => false) "rtsp".toList
    "example.com".toList "live".toList ["ch".toList, "sub".toList] "vhost=custom.com".toList
    (by decide) (by decide) (by decide) (by decide) (by decide) (by decide) (by decide)
    (by decide)).2 "custom.com".toList (by decide) rfl (by decide)
